import Mathlib

/-!
# Verification of the trxwrap transaction-retry layer

Shallow embedding of the Go sources of the trxwrap repository:

* `db.go`, package `trxwrap` (pgx/PostgreSQL variant): the retry
  orchestrator `retry`, the classifier helper `ToSQLState`, the
  transaction executor `runTransactionOnce`, the error wrapper
  `wrapError` / type `Error` with its `GRPCStatus` and `Unwrap`
  methods, and the read-only detector `isReadOnlyQuery`.
* package `database` (MySQL variant, shipped alongside): the retry
  orchestrator `(*retrier).retry`, the classifier helper
  `ToMySQLError`, `runTransactionOnce`, the identical
  `isReadOnlyQuery`, and the per-statement wrappers of `wrappedPool`
  (`ExecContext`, `QueryContext`, `QueryRowContext`, `PrepareContext`).

Go errors are modelled as inductive values; `nil` errors are `Option`.
Loops carry explicit fuel exactly matching the source's bounds; the
one unbounded loop (`isReadOnlyQuery`) is fuel-indexed with `none`
modelling divergence.  Side effects irrelevant to control flow (the
bummer error-reporting sink of the MySQL variant) are elided; sleeps
are recorded in an explicit trace.
-/

namespace Trxwrap

/-- Errors that can flow through the pgx variant (package `trxwrap`).

* `pgError s` models a `*pgconn.PgError` (a server error) whose
  `SQLState()` is `s`.
* `netErr safe` models a pgconn client-side error implementing the
  `SafeToRetry() bool` interface (e.g. a network error raised before
  the request was delivered); `pgconn.SafeToRetry` reports `safe` on it.
* `eofErr` / `unexpectedEOF` are the sentinels `io.EOF` and
  `io.ErrUnexpectedEOF`.
* `errNoRows`, `errTxClosed`, `errTxCommitRollback` are the pgx
  sentinels `pgx.ErrNoRows`, `pgx.ErrTxClosed`, `pgx.ErrTxCommitRollback`.
* `canceled` models `context.Canceled`.
* `appErr n` is an opaque application/business error (tagged to keep
  distinct values distinct).
* `wrapped p` is the package's own wrapper type `Error` with parent `p`. -/
inductive GoErr : Type where
  | pgError (sqlstate : String)
  | netErr (safe : Bool)
  | eofErr
  | unexpectedEOF
  | errNoRows
  | errTxClosed
  | errTxCommitRollback
  | canceled
  | appErr (tag : Nat)
  | wrapped (parent : GoErr)
  deriving DecidableEq

/-- `errors.As(err, &pge)` for `*pgconn.PgError`: walk the `Unwrap`
chain (the wrapper type `Error` unwraps to its parent) looking for a
`PgError`, returning its SQL state. -/
def findPgState : GoErr → Option String
  | .pgError s => some s
  | .wrapped p => findPgState p
  | _ => none

/-- `pgconn.SafeToRetry(err)`: a direct (non-unwrapping) type assertion
to `interface { SafeToRetry() bool }`; only the pgconn client-side
errors implement it, and a `nil` error does not. -/
def SafeToRetry : Option GoErr → Bool
  | some (.netErr safe) => safe
  | _ => false

/-- `ToSQLState` from `db.go`: a direct type assertion on the wrapper
type `Error` maps a parent of exactly `io.EOF` or `io.ErrUnexpectedEOF`
to the invented state `08Q99`; otherwise `errors.As` searches the
unwrap chain for a `*pgconn.PgError` and returns its SQL state, and
an absent code yields the empty string. -/
def ToSQLState : Option GoErr → String
  | none => ""
  | some (.wrapped .eofErr) => "08Q99"
  | some (.wrapped .unexpectedEOF) => "08Q99"
  | some e => (findPgState e).getD ""

/-- The first `switch` arm of `retry` in `db.go`: serialization failure
`40001` and deadlock detected `40P01`, which are always retried. -/
def isAlwaysCodePgx (s : String) : Bool :=
  decide (s = "40001" ∨ s = "40P01")

/-- The second `switch` arm of `retry` in `db.go`: the
connection/server-availability codes, retried only when no commit was
attempted or the transaction is idempotent. -/
def isSafeCodePgx (s : String) : Bool :=
  decide (s = "08Q99" ∨ s = "57P01" ∨ s = "57P02" ∨ s = "57P03" ∨
    s = "08000" ∨ s = "08003" ∨ s = "08006" ∨ s = "08001" ∨ s = "08004")

/-- The per-iteration retry decision of `retry` in `db.go`:
`retry := pgconn.SafeToRetry(err)` overridden by the two `switch` arms. -/
def shouldRetryPgx (commitAttempted idempotent : Bool) (err : Option GoErr) : Bool :=
  if isAlwaysCodePgx (ToSQLState err) then true
  else if isSafeCodePgx (ToSQLState err) then !commitAttempted || idempotent
  else SafeToRetry err

/-- A `context.Context` as far as this package observes it: whether it
has been cancelled.  Neither retry loop ever consults it. -/
structure GoContext : Type where
  cancelled : Bool
  deriving DecidableEq

/-- Observable outcome of one orchestrated retry run: the returned
error, how many times the attempt closure was invoked, and the sleep
durations (milliseconds) in order. -/
structure RunResult (ε : Type) : Type where
  err : Option ε
  attemptsUsed : Nat
  sleeps : List Nat
  deriving DecidableEq

/-- The loop body of `retry` in `db.go`.  `attempt` is the loop index;
`remaining` is `3 - attempt`, so the `attempt >= 3` check is
`remaining = 0`.  The attempt closure `f` is modelled as a function
from the attempt index to the `(commitAttempted, err)` pair it returns
on that invocation.  Each retry sleeps the fixed 500ms. -/
def retryAuxPgx (f : Nat → Bool × Option GoErr) (idempotent : Bool) :
    Nat → Nat → RunResult GoErr
  | attempt, 0 => { err := (f attempt).2, attemptsUsed := 1, sleeps := [] }
  | attempt, remaining + 1 =>
    if shouldRetryPgx (f attempt).1 idempotent (f attempt).2 then
      let rest := retryAuxPgx f idempotent (attempt + 1) remaining
      { err := rest.err, attemptsUsed := rest.attemptsUsed + 1,
        sleeps := 500 :: rest.sleeps }
    else { err := (f attempt).2, attemptsUsed := 1, sleeps := [] }

/-- `retry(ctx, f, idempotent)` from `db.go`.  The context argument is
received but never used by the loop body (the sleep is a plain
`time.Sleep(500 * time.Millisecond)`). -/
def retry (_ctx : GoContext) (f : Nat → Bool × Option GoErr) (idempotent : Bool) :
    RunResult GoErr :=
  retryAuxPgx f idempotent 0 3

/-- `wrapError` from `db.go`: `nil` stays `nil`, the three pgx
sentinels pass through unwrapped, everything else is wrapped in `Error`. -/
def wrapError : Option GoErr → Option GoErr
  | none => none
  | some e =>
    if e = .errNoRows ∨ e = .errTxClosed ∨ e = .errTxCommitRollback then some e
    else some (.wrapped e)

/-- The sentinel test inside `wrapError`, exposed for statements. -/
def isSentinel (e : GoErr) : Bool :=
  decide (e = .errNoRows ∨ e = .errTxClosed ∨ e = .errTxCommitRollback)

/-- `Error.GRPCStatus` from `db.go`: defined only on the wrapper type;
regardless of the parent it returns gRPC code 13 (`codes.Internal`)
with the constant message. -/
def GRPCStatus : GoErr → Option (Nat × String)
  | .wrapped _ => some (13, "database error")
  | _ => none

/-- `Error.Unwrap` from `db.go` (only the wrapper type implements it). -/
def Unwrap : GoErr → Option GoErr
  | .wrapped p => some p
  | _ => none

/-- The unwrap-chain walk behind `errors.Is`: direct equality or
recursion into the wrapper's parent. -/
def errorsIsErr : GoErr → GoErr → Bool
  | .wrapped p, t => if GoErr.wrapped p = t then true else errorsIsErr p t
  | e, t => e = t

/-- `errors.Is(err, target)` for the sentinel targets used here:
false on nil, otherwise membership of the unwrap chain. -/
def errorsIs : Option GoErr → GoErr → Bool
  | none, _ => false
  | some e, t => errorsIsErr e t

/-- Inputs determining one run of the pgx `runTransactionOnce` (and of
the MySQL one, over its own error type): the error `BeginTx` would
return, the error the caller's unit of work would return, and the
error `Commit` would return. -/
structure TxEnv (ε : Type) : Type where
  beginErr : Option ε
  runnerErr : Option ε
  commitErr : Option ε
  deriving DecidableEq

/-- Result of one `runTransactionOnce` run: the reported
`commitAttempted` flag, the returned error, and whether a rollback was
issued to the driver. -/
structure TxResult (ε : Type) : Type where
  commitAttempted : Bool
  err : Option ε
  rollbackIssued : Bool
  deriving DecidableEq

/-- `runTransactionOnce` from `db.go` (pgx variant): a failed begin
returns `(false, wrapError(err))`; a unit-of-work error rolls back and
returns `(false, err)` with the caller's error unwrapped; otherwise
commit is attempted and `(true, wrapError(commitErr))` is returned
unconditionally. -/
def runTransactionOnce (env : TxEnv GoErr) : TxResult GoErr :=
  match env.beginErr with
  | some e => { commitAttempted := false, err := wrapError (some e), rollbackIssued := false }
  | none =>
    match env.runnerErr with
    | some e => { commitAttempted := false, err := some e, rollbackIssued := true }
    | none => { commitAttempted := true, err := wrapError env.commitErr, rollbackIssued := false }

/-- Errors that can flow through the MySQL variant (package `database`).

* `mysqlError n` models a `*mysql.MySQLError` with `Number = n`
  (a `uint16` in Go, so `n < 65536` for every real error).
* `sqlErrNoRows` is `sql.ErrNoRows`; `canceled` is `context.Canceled`;
  `appErr n` is an opaque application error. -/
inductive MyErr : Type where
  | mysqlError (number : Nat)
  | sqlErrNoRows
  | canceled
  | appErr (tag : Nat)
  deriving DecidableEq

/-- `ToMySQLError` from the `database` package: `errors.As` for
`*mysql.MySQLError` yields its numeric code, absent code yields 0
(no wrapper type exists in this package, so the chain is direct). -/
def ToMySQLError : Option MyErr → Nat
  | some (.mysqlError n) => n
  | _ => 0

/-- The first `switch` arm of `(*retrier).retry`: lock/deadlock and
transaction-restart codes, always retried. -/
def isAlwaysCodeMy (n : Nat) : Bool :=
  decide (n = 1205 ∨ n = 1213 ∨ n = 1412 ∨ n = 1587 ∨ n = 1613 ∨
    n = 1614 ∨ n = 1637 ∨ n = 1689 ∨ n = 3058)

/-- The second `switch` arm of `(*retrier).retry`: server-shutdown
codes, retried only when no commit was attempted or the call is
idempotent. -/
def isSafeCodeMy (n : Nat) : Bool :=
  decide (n = 1053 ∨ n = 1077 ∨ n = 1078 ∨ n = 1079)

/-- The per-iteration retry decision of `(*retrier).retry`:
`retry := false` overridden by the two `switch` arms (there is no
`SafeToRetry` escape in this variant). -/
def shouldRetryMy (commitAttempted idempotent : Bool) (err : Option MyErr) : Bool :=
  if isAlwaysCodeMy (ToMySQLError err) then true
  else if isSafeCodeMy (ToMySQLError err) then !commitAttempted || idempotent
  else false

/-- The loop body of `(*retrier).retry` from the `database` package.
`MAXRETRIES = 3`, so `remaining` is `3 - attempt` as in the pgx loop.
The sleep on a retry is `RETRYWAIT * (attempt+1) + jitter`, with
`RETRYWAIT = 50ms` and `jitter = rand.Int63n(RETRYJITTER)`; the random
stream is an explicit parameter `jit`.  The bummer error-report sends
(`r.error.Send()` / `DropLevel(Warning)`) only emit telemetry and are
elided.  The `time.Sleep(totalWait)` does not consult the context. -/
def retryAuxMy (jit : Nat → Nat) (f : Nat → Bool × Option MyErr) (idempotent : Bool) :
    Nat → Nat → RunResult MyErr
  | attempt, 0 => { err := (f attempt).2, attemptsUsed := 1, sleeps := [] }
  | attempt, remaining + 1 =>
    if shouldRetryMy (f attempt).1 idempotent (f attempt).2 then
      let rest := retryAuxMy jit f idempotent (attempt + 1) remaining
      { err := rest.err, attemptsUsed := rest.attemptsUsed + 1,
        sleeps := (50 * (attempt + 1) + jit attempt) :: rest.sleeps }
    else { err := (f attempt).2, attemptsUsed := 1, sleeps := [] }

/-- `(*retrier).retry(ctx, f, idempotent)` from the `database`
package.  As in the pgx variant, the context argument is received but
never consulted. -/
def retrierRetry (_ctx : GoContext) (jit : Nat → Nat)
    (f : Nat → Bool × Option MyErr) (idempotent : Bool) : RunResult MyErr :=
  retryAuxMy jit f idempotent 0 3

/-- `runTransactionOnce` from the `database` package: a failed begin
returns `(false, err)`; after a successful begin a `defer tx.Rollback()`
is installed (a no-op after a successful commit, but still issued);
a unit-of-work error returns `(false, err)`; otherwise `Commit` is
attempted and `(true, commitErr)` returned unconditionally.  No error
wrapping exists in this variant. -/
def runTransactionOnceMy (env : TxEnv MyErr) : TxResult MyErr :=
  match env.beginErr with
  | some e => { commitAttempted := false, err := some e, rollbackIssued := false }
  | none =>
    match env.runnerErr with
    | some e => { commitAttempted := false, err := some e, rollbackIssued := true }
    | none => { commitAttempted := true, err := env.commitErr, rollbackIssued := true }

/-- `strings.Index(s, c)` for a single character: the index of the
first occurrence, or `-1` when absent (all query text here is ASCII,
so byte and character indices agree). -/
def goIndex (s : List Char) (c : Char) : Int :=
  match s with
  | [] => -1
  | a :: rest =>
    if a = c then 0
    else
      let r := goIndex rest c
      if r = -1 then -1 else r + 1

/-- One iteration of the comment-skipping loop of `isReadOnlyQuery`:
`sql = sql[strings.Index(sql, "\n")+1:]`.  When there is no newline,
`strings.Index` returns `-1` and the slice `sql[0:]` is `sql` itself. -/
def commentStep (sql : List Char) : List Char :=
  sql.drop (goIndex sql '\n' + 1).toNat

/-- `isReadOnlyQuery` (identical in both variants): skip lines while
the text starts with `--`, then test for the prefix `SELECT`.  The Go
loop has no bound, so the embedding is fuel-indexed; `none` models
divergence (the loop never exiting within the given fuel, for any
fuel). -/
def isReadOnlyQuery : Nat → List Char → Option Bool
  | 0, _ => none
  | fuel + 1, sql =>
    if ("--".data).isPrefixOf sql then isReadOnlyQuery fuel (commentStep sql)
    else some (("SELECT".data).isPrefixOf sql)

/-- `wrappedPool.ExecContext` from `wrapped.go`: the attempt closure
always returns `commitAttempted = true` (`return true, err`), and the
idempotent flag passed to `(*retrier).retry` is `false`.  The errors
the pool would produce on successive attempts are the stream `errs`. -/
def wrappedPoolExecContext (ctx : GoContext) (jit : Nat → Nat)
    (errs : Nat → Option MyErr) : RunResult MyErr :=
  retrierRetry ctx jit (fun n => (true, errs n)) false

/-- `wrappedPool.QueryContext` from `wrapped.go`: `commitAttempted`
is always `true` and the idempotent flag is `isReadOnlyQuery(query)`.
Because `isReadOnlyQuery` may diverge, the result is `none` when its
loop does not finish within `qfuel`. -/
def wrappedPoolQueryContext (ctx : GoContext) (jit : Nat → Nat)
    (query : List Char) (qfuel : Nat) (errs : Nat → Option MyErr) :
    Option (RunResult MyErr) :=
  (isReadOnlyQuery qfuel query).map fun idem =>
    retrierRetry ctx jit (fun n => (true, errs n)) idem

/-- `wrappedPool.QueryRowContext` from `wrapped.go`: same shape as
`QueryContext` (`return true, row.Err()`, idempotency inferred from
the query text); the retry loop's error is discarded by the caller but
the loop itself is identical. -/
def wrappedPoolQueryRowContext (ctx : GoContext) (jit : Nat → Nat)
    (query : List Char) (qfuel : Nat) (errs : Nat → Option MyErr) :
    Option (RunResult MyErr) :=
  (isReadOnlyQuery qfuel query).map fun idem =>
    retrierRetry ctx jit (fun n => (true, errs n)) idem

/-- `wrappedPool.PrepareContext` from `wrapped.go`: `commitAttempted`
is always `true` and the idempotent flag is the literal `true`
(preparing has no side effect). -/
def wrappedPoolPrepareContext (ctx : GoContext) (jit : Nat → Nat)
    (errs : Nat → Option MyErr) : RunResult MyErr :=
  retrierRetry ctx jit (fun n => (true, errs n)) true

/-- Fatal classification for the pgx decision logic: the code is in
neither `switch` arm and the driver does not flag the error as safe to
retry.  These are exactly the errors `retry` never retries, whatever
`commitAttempted` and `idempotent` are. -/
def isFatalPgx (err : Option GoErr) : Bool :=
  !isAlwaysCodePgx (ToSQLState err) && !isSafeCodePgx (ToSQLState err) &&
    !SafeToRetry err

/-! ## Helper lemmas -/

theorem safe_not_always_pgx {s : String} (h : isSafeCodePgx s = true) :
    isAlwaysCodePgx s = false := by
  simp only [isSafeCodePgx, decide_eq_true_eq] at h
  rcases h with h | h | h | h | h | h | h | h | h <;> subst h <;> decide

theorem safe_not_alwaysSafe_pgx {err : Option GoErr}
    (h : isSafeCodePgx (ToSQLState err) = true) (ca idem : Bool) :
    shouldRetryPgx ca idem err = (!ca || idem) := by
  simp [shouldRetryPgx, safe_not_always_pgx h, h]

theorem safe_not_always_my {n : Nat} (h : isSafeCodeMy n = true) :
    isAlwaysCodeMy n = false := by
  simp only [isSafeCodeMy, decide_eq_true_eq] at h
  rcases h with h | h | h | h <;> subst h <;> decide

theorem shouldRetryMy_safe {err : Option MyErr}
    (h : isSafeCodeMy (ToMySQLError err) = true) (ca idem : Bool) :
    shouldRetryMy ca idem err = (!ca || idem) := by
  simp [shouldRetryMy, safe_not_always_my h, h]

theorem shouldRetryPgx_fatal {err : Option GoErr} (h : isFatalPgx err = true)
    (ca idem : Bool) : shouldRetryPgx ca idem err = false := by
  simp only [isFatalPgx, Bool.and_eq_true, Bool.not_eq_true'] at h
  obtain ⟨⟨h1, h2⟩, h3⟩ := h
  simp [shouldRetryPgx, h1, h2, h3]

theorem retryAuxPgx_attempts_pos (f : Nat → Bool × Option GoErr) (idem : Bool) :
    ∀ remaining attempt, 1 ≤ (retryAuxPgx f idem attempt remaining).attemptsUsed := by
  intro remaining
  induction remaining with
  | zero => intro attempt; simp [retryAuxPgx]
  | succ r ih =>
    intro attempt
    rw [retryAuxPgx]
    by_cases h : shouldRetryPgx (f attempt).1 idem (f attempt).2 = true
    · simp only [if_pos h]
      omega
    · simp only [if_neg h]
      omega

theorem retryAuxMy_attempts_pos (jit : Nat → Nat) (f : Nat → Bool × Option MyErr)
    (idem : Bool) :
    ∀ remaining attempt, 1 ≤ (retryAuxMy jit f idem attempt remaining).attemptsUsed := by
  intro remaining
  induction remaining with
  | zero => intro attempt; simp [retryAuxMy]
  | succ r ih =>
    intro attempt
    rw [retryAuxMy]
    by_cases h : shouldRetryMy (f attempt).1 idem (f attempt).2 = true
    · simp only [if_pos h]
      omega
    · simp only [if_neg h]
      omega

theorem retryAuxPgx_spec (f : Nat → Bool × Option GoErr) (idem : Bool) :
    ∀ remaining attempt,
      (retryAuxPgx f idem attempt remaining).attemptsUsed ≤ remaining + 1 ∧
      (retryAuxPgx f idem attempt remaining).err =
        (f (attempt + (retryAuxPgx f idem attempt remaining).attemptsUsed - 1)).2 := by
  intro remaining
  induction remaining with
  | zero =>
    intro attempt
    refine ⟨by simp [retryAuxPgx], ?_⟩
    simp [retryAuxPgx]
  | succ r ih =>
    intro attempt
    rw [retryAuxPgx]
    by_cases h : shouldRetryPgx (f attempt).1 idem (f attempt).2 = true
    · simp only [if_pos h]
      obtain ⟨ih1, ih2⟩ := ih (attempt + 1)
      have hpos := retryAuxPgx_attempts_pos f idem r (attempt + 1)
      refine ⟨by omega, ?_⟩
      rw [ih2]
      have heq : attempt + 1 + (retryAuxPgx f idem (attempt + 1) r).attemptsUsed - 1 =
          attempt + ((retryAuxPgx f idem (attempt + 1) r).attemptsUsed + 1) - 1 := by omega
      rw [heq]
    · simp only [if_neg h]
      refine ⟨by omega, ?_⟩
      have heq : attempt = attempt + 1 - 1 := by omega
      conv_lhs => rw [heq]

theorem retryAuxMy_spec (jit : Nat → Nat) (f : Nat → Bool × Option MyErr) (idem : Bool) :
    ∀ remaining attempt,
      (retryAuxMy jit f idem attempt remaining).attemptsUsed ≤ remaining + 1 ∧
      (retryAuxMy jit f idem attempt remaining).err =
        (f (attempt + (retryAuxMy jit f idem attempt remaining).attemptsUsed - 1)).2 := by
  intro remaining
  induction remaining with
  | zero =>
    intro attempt
    refine ⟨by simp [retryAuxMy], ?_⟩
    simp [retryAuxMy]
  | succ r ih =>
    intro attempt
    rw [retryAuxMy]
    by_cases h : shouldRetryMy (f attempt).1 idem (f attempt).2 = true
    · simp only [if_pos h]
      obtain ⟨ih1, ih2⟩ := ih (attempt + 1)
      have hpos := retryAuxMy_attempts_pos jit f idem r (attempt + 1)
      refine ⟨by omega, ?_⟩
      rw [ih2]
      have heq : attempt + 1 + (retryAuxMy jit f idem (attempt + 1) r).attemptsUsed - 1 =
          attempt + ((retryAuxMy jit f idem (attempt + 1) r).attemptsUsed + 1) - 1 := by omega
      rw [heq]
    · simp only [if_neg h]
      refine ⟨by omega, ?_⟩
      have heq : attempt = attempt + 1 - 1 := by omega
      conv_lhs => rw [heq]

theorem retryAuxPgx_ge_two_iff (f : Nat → Bool × Option GoErr) (idem : Bool)
    (attempt r : Nat) :
    2 ≤ (retryAuxPgx f idem attempt (r + 1)).attemptsUsed ↔
      shouldRetryPgx (f attempt).1 idem (f attempt).2 = true := by
  rw [retryAuxPgx]
  by_cases h : shouldRetryPgx (f attempt).1 idem (f attempt).2 = true
  · simp only [if_pos h]
    have hpos := retryAuxPgx_attempts_pos f idem r (attempt + 1)
    constructor
    · intro _; exact h
    · intro _; omega
  · simp only [if_neg h]
    constructor
    · intro h2; omega
    · intro h2; exact absurd h2 h

theorem retryAuxMy_ge_two_iff (jit : Nat → Nat) (f : Nat → Bool × Option MyErr)
    (idem : Bool) (attempt r : Nat) :
    2 ≤ (retryAuxMy jit f idem attempt (r + 1)).attemptsUsed ↔
      shouldRetryMy (f attempt).1 idem (f attempt).2 = true := by
  rw [retryAuxMy]
  by_cases h : shouldRetryMy (f attempt).1 idem (f attempt).2 = true
  · simp only [if_pos h]
    have hpos := retryAuxMy_attempts_pos jit f idem r (attempt + 1)
    constructor
    · intro _; exact h
    · intro _; omega
  · simp only [if_neg h]
    constructor
    · intro h2; omega
    · intro h2; exact absurd h2 h

theorem retryAuxPgx_no_retry (f : Nat → Bool × Option GoErr) (idem : Bool)
    (attempt r : Nat) (ca : Bool) (err : Option GoErr)
    (h0 : f attempt = (ca, err)) (h : shouldRetryPgx ca idem err = false) :
    retryAuxPgx f idem attempt (r + 1) = { err := err, attemptsUsed := 1, sleeps := [] } := by
  rw [retryAuxPgx, h0]
  simp [h]

theorem retryAuxMy_no_retry (jit : Nat → Nat) (f : Nat → Bool × Option MyErr)
    (idem : Bool) (attempt r : Nat) (ca : Bool) (err : Option MyErr)
    (h0 : f attempt = (ca, err)) (h : shouldRetryMy ca idem err = false) :
    retryAuxMy jit f idem attempt (r + 1) = { err := err, attemptsUsed := 1, sleeps := [] } := by
  rw [retryAuxMy, h0]
  simp [h]

theorem retryAuxPgx_sleeps (f : Nat → Bool × Option GoErr) (idem : Bool) :
    ∀ remaining attempt,
      ((retryAuxPgx f idem attempt remaining).sleeps).all (fun d => d == 500) = true := by
  intro remaining
  induction remaining with
  | zero => intro attempt; simp [retryAuxPgx]
  | succ r ih =>
    intro attempt
    rw [retryAuxPgx]
    by_cases h : shouldRetryPgx (f attempt).1 idem (f attempt).2 = true
    · simp only [if_pos h]
      simp only [List.all_cons, ih (attempt + 1)]
      decide
    · simp only [if_neg h]
      rfl

theorem isReadOnlyQuery_step {sql : List Char} (h : ("--".data).isPrefixOf sql = true)
    (n : Nat) : isReadOnlyQuery (n + 1) sql = isReadOnlyQuery n (commentStep sql) := by
  rw [isReadOnlyQuery]
  simp [h]

theorem isReadOnlyQuery_done {sql : List Char} (h : ("--".data).isPrefixOf sql = false)
    (n : Nat) : isReadOnlyQuery (n + 1) sql = some (("SELECT".data).isPrefixOf sql) := by
  rw [isReadOnlyQuery]
  simp [h]

/-! ## Claims -/

/-- Claim C1: for every attempt whose error is classified
`RetryableIfSafe` (its code sits in the connection/server-availability
arm of the `switch`), the retry orchestrator retries if and only if
`commitAttempted` is false or `idempotent` is true: the per-iteration
decision of both loops equals `!commitAttempted || idempotent` on such
errors, and at the loop level (with budget remaining) a second attempt
happens exactly under that condition, in both the pgx transaction loop
`retry` and the MySQL/per-statement loop `(*retrier).retry`. -/
theorem c1 :
    (∀ (ca idem : Bool) (err : Option GoErr), isSafeCodePgx (ToSQLState err) = true →
       shouldRetryPgx ca idem err = (!ca || idem)) ∧
    (∀ (ca idem : Bool) (err : Option MyErr), isSafeCodeMy (ToMySQLError err) = true →
       shouldRetryMy ca idem err = (!ca || idem)) ∧
    (∀ (ctx : GoContext) (f : Nat → Bool × Option GoErr) (idem ca : Bool)
       (err : Option GoErr), f 0 = (ca, err) → isSafeCodePgx (ToSQLState err) = true →
       (2 ≤ (retry ctx f idem).attemptsUsed ↔ (!ca || idem) = true)) ∧
    (∀ (ctx : GoContext) (jit : Nat → Nat) (f : Nat → Bool × Option MyErr)
       (idem ca : Bool) (err : Option MyErr),
       f 0 = (ca, err) → isSafeCodeMy (ToMySQLError err) = true →
       (2 ≤ (retrierRetry ctx jit f idem).attemptsUsed ↔ (!ca || idem) = true)) := by
  refine ⟨fun ca idem err h => safe_not_alwaysSafe_pgx h ca idem,
    fun ca idem err h => shouldRetryMy_safe h ca idem, ?_, ?_⟩
  · intro ctx f idem ca err h0 hsafe
    have hiff := retryAuxPgx_ge_two_iff f idem 0 2
    rw [h0] at hiff
    rw [show (retry ctx f idem) = retryAuxPgx f idem 0 (2 + 1) from rfl, hiff]
    rw [safe_not_alwaysSafe_pgx hsafe ca idem]
  · intro ctx jit f idem ca err h0 hsafe
    have hiff := retryAuxMy_ge_two_iff jit f idem 0 2
    rw [h0] at hiff
    rw [show (retrierRetry ctx jit f idem) = retryAuxMy jit f idem 0 (2 + 1) from rfl, hiff]
    rw [shouldRetryMy_safe hsafe ca idem]

/-- Witness for C1 at a concrete input: the connection-failure code
`08006` with `commitAttempted = true` and `idempotent = false` is not
retried by the pgx loop. -/
theorem c1_witness :
    isSafeCodePgx (ToSQLState (some (.pgError "08006"))) = true ∧
    (2 ≤ (retry ⟨false⟩ (fun _ => (true, some (.pgError "08006"))) false).attemptsUsed ↔
      (!true || false) = true) :=
  ⟨by decide, c1.2.2.1 ⟨false⟩ (fun _ => (true, some (.pgError "08006"))) false true
    (some (.pgError "08006")) rfl (by decide)⟩

/-- Claim C2, counterexample to the claim as stated: a pgconn
client-side error that reports `SafeToRetry() = true` (the request was
never delivered) has an absent backend error code — `ToSQLState` is
the empty string — yet the orchestrator retries it up to the full
budget (4 attempts, not 1), because `retry` seeds its decision with
`pgconn.SafeToRetry(err)` before consulting the code tables. -/
theorem c2_counterexample :
    ToSQLState (some (.netErr true)) = "" ∧
    isAlwaysCodePgx (ToSQLState (some (.netErr true))) = false ∧
    isSafeCodePgx (ToSQLState (some (.netErr true))) = false ∧
    (retry ⟨false⟩ (fun _ => (false, some (.netErr true))) false).attemptsUsed = 4 := by
  refine ⟨rfl, by decide, by decide, by decide⟩

/-- Claim C2 as amended: for every error classified `Fatal` — an
unrecognized or absent backend error code *and* not flagged safe to
retry by the driver — the orchestrator performs exactly one attempt
and returns that error without retrying or sleeping, even on
attempt 0. -/
theorem c2_amended (ctx : GoContext) (f : Nat → Bool × Option GoErr) (idem ca : Bool)
    (err : Option GoErr) (h0 : f 0 = (ca, err)) (hf : isFatalPgx err = true) :
    retry ctx f idem = { err := err, attemptsUsed := 1, sleeps := [] } :=
  retryAuxPgx_no_retry f idem 0 2 ca err h0 (shouldRetryPgx_fatal hf ca idem)

/-- Witness for the amended C2: a plain application error is returned
after a single attempt. -/
theorem c2_amended_witness :
    isFatalPgx (some (.appErr 7)) = true ∧
    retry ⟨false⟩ (fun _ => (false, some (.appErr 7))) false =
      { err := some (.appErr 7), attemptsUsed := 1, sleeps := [] } :=
  ⟨by decide, c2_amended ⟨false⟩ (fun _ => (false, some (.appErr 7))) false false
    (some (.appErr 7)) rfl (by decide)⟩

/-- Claim C3: in both retry loops the attempt closure is invoked at
least once and at most `maxRetries + 1 = 4` times, and the error
returned to the caller is always the error of the last attempt made
(in particular, when the budget is exhausted, the fourth attempt's
error). -/
theorem c3 :
    (∀ (ctx : GoContext) (f : Nat → Bool × Option GoErr) (idem : Bool),
       1 ≤ (retry ctx f idem).attemptsUsed ∧ (retry ctx f idem).attemptsUsed ≤ 4 ∧
       (retry ctx f idem).err = (f ((retry ctx f idem).attemptsUsed - 1)).2) ∧
    (∀ (ctx : GoContext) (jit : Nat → Nat) (f : Nat → Bool × Option MyErr) (idem : Bool),
       1 ≤ (retrierRetry ctx jit f idem).attemptsUsed ∧
       (retrierRetry ctx jit f idem).attemptsUsed ≤ 4 ∧
       (retrierRetry ctx jit f idem).err =
         (f ((retrierRetry ctx jit f idem).attemptsUsed - 1)).2) := by
  constructor
  · intro ctx f idem
    have hpos := retryAuxPgx_attempts_pos f idem 3 0
    obtain ⟨h1, h2⟩ := retryAuxPgx_spec f idem 3 0
    refine ⟨hpos, h1, ?_⟩
    simpa using h2
  · intro ctx jit f idem
    have hpos := retryAuxMy_attempts_pos jit f idem 3 0
    obtain ⟨h1, h2⟩ := retryAuxMy_spec jit f idem 3 0
    refine ⟨hpos, h1, ?_⟩
    simpa using h2

/-- Claim C4: in both variants of `runTransactionOnce`,
`commitAttempted` is reported true exactly when begin succeeded and
the caller's unit of work returned nil; a failed begin yields
`(false, err)` (wrapped in the pgx variant) with no rollback; a
unit-of-work error yields `(false, that error)` after a rollback; and
once the unit of work succeeds the result is `(true, commitErr)`
unconditionally, even when the commit call itself fails. -/
theorem c4 :
    (∀ env : TxEnv GoErr, (runTransactionOnce env).commitAttempted =
       (env.beginErr.isNone && env.runnerErr.isNone)) ∧
    (∀ (e : GoErr) (r c : Option GoErr), runTransactionOnce ⟨some e, r, c⟩ =
       ⟨false, wrapError (some e), false⟩) ∧
    (∀ (e : GoErr) (c : Option GoErr), runTransactionOnce ⟨none, some e, c⟩ =
       ⟨false, some e, true⟩) ∧
    (∀ c : Option GoErr, runTransactionOnce ⟨none, none, c⟩ = ⟨true, wrapError c, false⟩) ∧
    (∀ env : TxEnv MyErr, (runTransactionOnceMy env).commitAttempted =
       (env.beginErr.isNone && env.runnerErr.isNone)) ∧
    (∀ (e : MyErr) (r c : Option MyErr), runTransactionOnceMy ⟨some e, r, c⟩ =
       ⟨false, some e, false⟩) ∧
    (∀ (e : MyErr) (c : Option MyErr), runTransactionOnceMy ⟨none, some e, c⟩ =
       ⟨false, some e, true⟩) ∧
    (∀ c : Option MyErr, runTransactionOnceMy ⟨none, none, c⟩ = ⟨true, c, true⟩) := by
  refine ⟨?_, fun e r c => rfl, fun e c => rfl, fun c => rfl,
    ?_, fun e r c => rfl, fun e c => rfl, fun c => rfl⟩
  · intro env
    obtain ⟨b, r, c⟩ := env
    cases b <;> cases r <;> rfl
  · intro env
    obtain ⟨b, r, c⟩ := env
    cases b <;> cases r <;> rfl

/-- Claim C5, counterexample to the claim as stated: with a context
that is already cancelled and an always-retryable error, the pgx
orchestrator still sleeps the full 500ms backoff three times and
returns the attempt error, not a cancellation error — the wait neither
ends early nor yields a cancellation error, because `time.Sleep`
ignores the context. -/
theorem c5_counterexample :
    (retry ⟨true⟩ (fun _ => (false, some (.pgError "40001"))) false).sleeps =
      [500, 500, 500] ∧
    (retry ⟨true⟩ (fun _ => (false, some (.pgError "40001"))) false).err =
      some (.pgError "40001") ∧
    (retry ⟨true⟩ (fun _ => (false, some (.pgError "40001"))) false).err ≠
      some .canceled := by
  refine ⟨by decide, by decide, by decide⟩

/-- Claim C5 as amended: the backoff wait between attempts never
observes the caller's context — both orchestrators produce identical
results (errors, attempt counts and sleep traces) for any two
contexts, cancelled or not, and every pgx backoff sleeps the full
500ms delay. -/
theorem c5_amended :
    (∀ (ctx ctx' : GoContext) (f : Nat → Bool × Option GoErr) (idem : Bool),
       retry ctx f idem = retry ctx' f idem) ∧
    (∀ (ctx : GoContext) (f : Nat → Bool × Option GoErr) (idem : Bool),
       ((retry ctx f idem).sleeps).all (fun d => d == 500) = true) ∧
    (∀ (ctx ctx' : GoContext) (jit : Nat → Nat) (f : Nat → Bool × Option MyErr)
       (idem : Bool), retrierRetry ctx jit f idem = retrierRetry ctx' jit f idem) :=
  ⟨fun _ _ _ _ => rfl, fun _ f idem => retryAuxPgx_sleeps f idem 3 0,
    fun _ _ _ _ _ => rfl⟩

/-- Claim C6: every non-nil, non-sentinel database error is wrapped by
`wrapError` into the `Error` type, whose externally visible gRPC
status is the same constant `(Internal, "database error")` for any two
wrapped errors — revealing nothing of the underlying error — while the
original error remains reachable through the `Unwrap` accessor. -/
theorem c6 :
    (∀ e : GoErr, isSentinel e = false → wrapError (some e) = some (.wrapped e)) ∧
    (∀ e1 e2 : GoErr, GRPCStatus (.wrapped e1) = GRPCStatus (.wrapped e2)) ∧
    (∀ e : GoErr, GRPCStatus (.wrapped e) = some (13, "database error")) ∧
    (∀ e : GoErr, Unwrap (.wrapped e) = some e) ∧
    wrapError none = none := by
  refine ⟨?_, fun e1 e2 => rfl, fun e => rfl, fun e => rfl, rfl⟩
  intro e h
  have h' : ¬(e = .errNoRows ∨ e = .errTxClosed ∨ e = .errTxCommitRollback) :=
    of_decide_eq_false h
  simp [wrapError, h']

/-- Witness for C6: a unique-violation server error is wrapped and its
parent is recoverable. -/
theorem c6_witness :
    isSentinel (.pgError "23505") = false ∧
    wrapError (some (.pgError "23505")) = some (.wrapped (.pgError "23505")) :=
  ⟨by decide, c6.1 (.pgError "23505") (by decide)⟩

/-- Claim C7, counterexample to the claim as stated: a bare `io.EOF`
(and likewise a doubly wrapped one) carries the end-of-stream
condition, yet `ToSQLState` yields the empty string for it — not
`08Q99` — and the decision logic treats it as fatal even when a retry
would be safe (`commitAttempted = false`, `idempotent = true`): the
`08Q99` mapping fires only on the direct type assertion
`err.(Error)` with parent exactly `io.EOF`/`io.ErrUnexpectedEOF`. -/
theorem c7_counterexample :
    (errorsIs (some .eofErr) .eofErr = true ∧
      ToSQLState (some .eofErr) = "" ∧
      shouldRetryPgx false true (some .eofErr) = false) ∧
    (errorsIs (some (.wrapped (.wrapped .eofErr))) .eofErr = true ∧
      ToSQLState (some (.wrapped (.wrapped .eofErr))) = "" ∧
      shouldRetryPgx false true (some (.wrapped (.wrapped .eofErr))) = false) := by
  decide

/-- Claim C7 as amended: the classifier maps exactly the errors that
are the package's `Error` wrapper directly around `io.EOF` or
`io.ErrUnexpectedEOF` (the form `wrapError` produces for them) to the
connection-failure code `08Q99`, which lies in the RetryableIfSafe arm,
so such an error is retried precisely when no commit was attempted or
the call is idempotent. -/
theorem c7_amended :
    ToSQLState (some (.wrapped .eofErr)) = "08Q99" ∧
    ToSQLState (some (.wrapped .unexpectedEOF)) = "08Q99" ∧
    wrapError (some .eofErr) = some (.wrapped .eofErr) ∧
    wrapError (some .unexpectedEOF) = some (.wrapped .unexpectedEOF) ∧
    isSafeCodePgx "08Q99" = true ∧
    (∀ ca idem : Bool, shouldRetryPgx ca idem (some (.wrapped .eofErr)) = (!ca || idem)) ∧
    (∀ ca idem : Bool,
      shouldRetryPgx ca idem (some (.wrapped .unexpectedEOF)) = (!ca || idem)) := by
  refine ⟨rfl, rfl, rfl, rfl, by decide, ?_, ?_⟩ <;>
    (intro ca idem; cases ca <;> cases idem <;> decide)

/-- Claim C8: the read-only detector skips leading `--` comment lines
and accepts exactly the statements that then begin with the literal
token `SELECT`: the two cited examples evaluate as claimed (for every
sufficient fuel), a text not starting with `--` is decided immediately
by the `SELECT` test, and a text starting with `--` is decided by
recursing on the remainder after the first newline. -/
theorem c8 :
    (∀ n : Nat, isReadOnlyQuery (n + 2) ("-- comment\nSELECT 1".data) = some true) ∧
    (∀ n : Nat, isReadOnlyQuery (n + 1) ("UPDATE t SET x=1".data) = some false) ∧
    (∀ (sql : List Char) (n : Nat), ("--".data).isPrefixOf sql = false →
       isReadOnlyQuery (n + 1) sql = some (("SELECT".data).isPrefixOf sql)) ∧
    (∀ (sql : List Char) (n : Nat), ("--".data).isPrefixOf sql = true →
       isReadOnlyQuery (n + 1) sql = isReadOnlyQuery n (commentStep sql)) := by
  refine ⟨?_, ?_, fun sql n h => isReadOnlyQuery_done h n,
    fun sql n h => isReadOnlyQuery_step h n⟩
  · intro n
    rw [show n + 2 = (n + 1) + 1 from rfl, isReadOnlyQuery_step (by decide),
      show commentStep ("-- comment\nSELECT 1".data) = "SELECT 1".data from by decide,
      isReadOnlyQuery_done (by decide)]
    decide
  · intro n
    rw [isReadOnlyQuery_done (by decide)]
    decide

/-- Witness for C8: the non-comment case applied to the cited UPDATE
statement. -/
theorem c8_witness :
    ("--".data).isPrefixOf ("UPDATE t SET x=1".data) = false ∧
    isReadOnlyQuery 1 ("UPDATE t SET x=1".data) =
      some (("SELECT".data).isPrefixOf ("UPDATE t SET x=1".data)) :=
  ⟨by decide, c8.2.2.1 ("UPDATE t SET x=1".data) 0 (by decide)⟩

/-- Claim C9 (the code violates it): on an input that starts with `--`
but contains no newline, `strings.Index` returns `-1` and the slice
`sql[0:]` is `sql` unchanged, so the comment-skipping loop re-examines
the same string forever: the loop guard holds at `"--x"`, the step
leaves it fixed, and the fuel-indexed embedding returns `none` for
every fuel — the function does not terminate on this input. -/
theorem c9 :
    ("--".data).isPrefixOf ("--x".data) = true ∧
    commentStep ("--x".data) = "--x".data ∧
    (∀ fuel : Nat, isReadOnlyQuery fuel ("--x".data) = none) := by
  refine ⟨by decide, by decide, ?_⟩
  intro fuel
  induction fuel with
  | zero => rfl
  | succ n ih =>
    rw [isReadOnlyQuery_step (by decide),
      show commentStep ("--x".data) = "--x".data from by decide]
    exact ih

/-- Claim C10: every per-statement wrapper of `wrappedPool` hands the
retry loop an attempt closure reporting `commitAttempted = true`, so
with the idempotent flag false the decision reduces to membership of
the always-retryable arm; consequently an `ExecContext` (idempotent
flag hard-coded false) or a query/query-row whose text is not inferred
read-only performs exactly one attempt on a RetryableIfSafe error, and
`PrepareContext` is the same loop with the idempotent flag hard-coded
true. -/
theorem c10 :
    (∀ err : Option MyErr, shouldRetryMy true false err =
       isAlwaysCodeMy (ToMySQLError err)) ∧
    (∀ (ctx : GoContext) (jit : Nat → Nat) (errs : Nat → Option MyErr),
       isSafeCodeMy (ToMySQLError (errs 0)) = true →
       (wrappedPoolExecContext ctx jit errs).attemptsUsed = 1) ∧
    (∀ (ctx : GoContext) (jit : Nat → Nat) (query : List Char) (qfuel : Nat)
       (errs : Nat → Option MyErr) (r : RunResult MyErr),
       wrappedPoolQueryContext ctx jit query qfuel errs = some r →
       isReadOnlyQuery qfuel query = some false →
       isSafeCodeMy (ToMySQLError (errs 0)) = true →
       r.attemptsUsed = 1) ∧
    (∀ (ctx : GoContext) (jit : Nat → Nat) (query : List Char) (qfuel : Nat)
       (errs : Nat → Option MyErr) (r : RunResult MyErr),
       wrappedPoolQueryRowContext ctx jit query qfuel errs = some r →
       isReadOnlyQuery qfuel query = some false →
       isSafeCodeMy (ToMySQLError (errs 0)) = true →
       r.attemptsUsed = 1) ∧
    (∀ (ctx : GoContext) (jit : Nat → Nat) (errs : Nat → Option MyErr),
       wrappedPoolPrepareContext ctx jit errs =
         retrierRetry ctx jit (fun n => (true, errs n)) true) := by
  have hdec : ∀ err : Option MyErr, shouldRetryMy true false err =
      isAlwaysCodeMy (ToMySQLError err) := by
    intro err
    by_cases h : isAlwaysCodeMy (ToMySQLError err) = true
    · simp [shouldRetryMy, h]
    · simp only [Bool.not_eq_true] at h
      simp [shouldRetryMy, h]
  have hone : ∀ (ctx : GoContext) (jit : Nat → Nat) (errs : Nat → Option MyErr),
      isSafeCodeMy (ToMySQLError (errs 0)) = true →
      (retrierRetry ctx jit (fun n => (true, errs n)) false).attemptsUsed = 1 := by
    intro ctx jit errs h
    have hno : shouldRetryMy true false (errs 0) = false := by
      rw [shouldRetryMy_safe h true false]
      rfl
    rw [show retrierRetry ctx jit (fun n => (true, errs n)) false =
        retryAuxMy jit (fun n => (true, errs n)) false 0 (2 + 1) from rfl,
      retryAuxMy_no_retry jit (fun n => (true, errs n)) false 0 2 true (errs 0) rfl hno]
  refine ⟨hdec, fun ctx jit errs h => hone ctx jit errs h, ?_, ?_, fun _ _ _ => rfl⟩
  · intro ctx jit query qfuel errs r hq hro hsafe
    rw [wrappedPoolQueryContext, hro] at hq
    simp only [Option.map, Option.some.injEq] at hq
    subst hq
    exact hone ctx jit errs hsafe
  · intro ctx jit query qfuel errs r hq hro hsafe
    rw [wrappedPoolQueryRowContext, hro] at hq
    simp only [Option.map, Option.some.injEq] at hq
    subst hq
    exact hone ctx jit errs hsafe

/-- Witness for C10: a server-shutdown error (code 1053) on an
`ExecContext` is not retried. -/
theorem c10_witness :
    isSafeCodeMy (ToMySQLError ((fun _ => some (.mysqlError 1053)) 0)) = true ∧
    (wrappedPoolExecContext ⟨false⟩ (fun _ => 0)
      (fun _ => some (.mysqlError 1053))).attemptsUsed = 1 :=
  ⟨by decide, c10.2.1 ⟨false⟩ (fun _ => 0) (fun _ => some (.mysqlError 1053)) (by decide)⟩

end Trxwrap
